import Mathlib

/-!
# Verification of the BeatPlus usage-profile generator

Shallow embedding of `scripts/csv_to_profiles.py`, the single source file of
the repository: a batch converter that reads a CSV of building-usage rows,
normalizes time and numeric cells, resolves each row's numeric prefix to a
canonical identifier, and emits one usage-profile record per row.

Python's partial operations are embedded explicitly:
* an out-of-range list index (which raises `IndexError` in Python) is
  modelled by `Option`, `none` standing for the raised exception;
* Python's `int(...)` and `float(...)` builtins are modelled by
  `parseIntPy` and `parseFloatPy` below, over ordinary decimal literals
  (optional sign, digits, optional fractional part and exponent, optional
  surrounding whitespace).  `float` results are represented exactly, as a
  `Decimal` value converted to a rational.  Exotic inputs accepted by
  CPython (digit underscores, `inf`/`nan`, non-ASCII digits) are outside
  the model; no cell in any statement below uses them.

String contents are manipulated as `List Char` (with explicit models of
Python's `strip`, `in`, single-character `split` and `replace`), so that
every definition evaluates by kernel reduction.
-/

/-- Python `str.strip()`: drop whitespace from both ends. -/
def trimChars (cs : List Char) : List Char :=
  ((cs.dropWhile Char.isWhitespace).reverse.dropWhile Char.isWhitespace).reverse

/-- Python `c in s` for a single character `c`. -/
def containsChar (c : Char) (cs : List Char) : Bool :=
  cs.any (fun x => x == c)

/-- Python `s.replace(c, "")` for a single-character pattern: remove every
occurrence of `c`. -/
def removeChar (c : Char) (cs : List Char) : List Char :=
  cs.filter (fun x => !(x == c))

/-- Python `s.split(c)` for a single-character separator: split at every
occurrence of `c`, dropping the separators; always a non-empty list of
(possibly empty) chunks. -/
def splitOnChar (c : Char) : List Char → List (List Char)
  | [] => [[]]
  | x :: xs =>
    if x == c then [] :: splitOnChar c xs
    else
      match splitOnChar c xs with
      | [] => [[x]]
      | h :: t => (x :: h) :: t

/-- Digits of a numeral as a natural number (`foldl`, most significant first). -/
def digitsVal (cs : List Char) : Nat :=
  cs.foldl (fun a c => a * 10 + (c.toNat - 48)) 0

/-- Parse a non-empty all-digit character list; `none` otherwise. -/
def parseNatDigits (cs : List Char) : Option Nat :=
  if cs.isEmpty then none
  else if cs.all Char.isDigit then some (digitsVal cs)
  else none

/-- Optional single leading sign followed by a non-empty digit string. -/
def parseSignedInt (cs : List Char) : Option Int :=
  match cs with
  | '+' :: r => (parseNatDigits r).map Int.ofNat
  | '-' :: r => (parseNatDigits r).map (fun n => -(n : Int))
  | r => (parseNatDigits r).map Int.ofNat

/-- Model of Python `int(s)` for a string argument: strip surrounding
whitespace, then optional sign and a non-empty digit string; `none`
models the raised `ValueError`. -/
def parseIntPy (cs : List Char) : Option Int :=
  parseSignedInt (trimChars cs)

/-- The exact value of a parsed decimal literal: sign, mantissa digits as
a natural number, number of fractional digits, power-of-ten exponent.
Kept symbolic so that parsing is decidable; `Decimal.toRat` gives the
numeric value. -/
structure Decimal where
  neg : Bool
  mant : Nat
  fracLen : Nat
  exp : Int
deriving DecidableEq, Repr

/-- Numeric value of a parsed decimal literal. -/
def Decimal.toRat (d : Decimal) : Rat :=
  (if d.neg then (-1 : Rat) else 1) * ((d.mant : Rat) / (10 : Rat) ^ d.fracLen)
    * (10 : Rat) ^ d.exp

/-- Unsigned decimal mantissa: `digits`, `digits.digits`, `.digits` or
`digits.` with at least one digit overall; returns the concatenated
digits and the fractional length. -/
def parseMantissa (cs : List Char) : Option (Nat × Nat) :=
  match splitOnChar '.' cs with
  | [a] => (parseNatDigits a).map (fun n => (n, 0))
  | [a, b] =>
    if a.isEmpty && b.isEmpty then none
    else if a.all Char.isDigit && b.all Char.isDigit then
      some (digitsVal a * 10 ^ b.length + digitsVal b, b.length)
    else none
  | _ => none

/-- Signed decimal with optional `e`-exponent (input already lowercased). -/
def parseDecimal (cs : List Char) : Option Decimal :=
  let (neg, body) :=
    match cs with
    | '+' :: r => (false, r)
    | '-' :: r => (true, r)
    | r => (false, r)
  match splitOnChar 'e' body with
  | [m] => (parseMantissa m).map (fun p => ⟨neg, p.1, p.2, 0⟩)
  | [m, e] => do
    let p ← parseMantissa m
    let ev ← parseSignedInt e
    some ⟨neg, p.1, p.2, ev⟩
  | _ => none

/-- Model of Python `float(s)` on finite decimal literals: strip
surrounding whitespace, fold case (for `E` exponents), parse exactly;
`none` models the raised `ValueError`. -/
def parseFloatPy (cs : List Char) : Option Decimal :=
  parseDecimal ((trimChars cs).map Char.toLower)

/-- `parse_time` from `csv_to_profiles.py`: empty or `:`-free input gives
`0`; otherwise the segment before the first `:` is parsed with `int`,
any failure caught and turned into `0`. -/
def parse_time (t_str : String) : Int :=
  let cs := t_str.toList
  if cs.isEmpty || !(containsChar ':' cs) then 0
  else
    match parseIntPy ((splitOnChar ':' cs).headD []) with
    | some n => n
    | none => 0

/-- The decidable part of `clean_num`: remove `,` and `%`, parse as float. -/
def clean_numD (s : String) : Option Decimal :=
  let cs := s.toList
  if cs.isEmpty then none
  else parseFloatPy (removeChar '%' (removeChar ',' cs))

/-- `clean_num` from `csv_to_profiles.py`: empty input gives `0`;
otherwise all `,` and `%` characters are removed and the rest parsed
with `float`, any failure caught and turned into `0`.  (The empty-input
early return and a caught parse failure both yield `0`, so they are
fused in `clean_numD`.) -/
def clean_num (s : String) : Rat :=
  match clean_numD s with
  | some d => d.toRat
  | none => 0

example : parse_time "" = 0 := by decide
example : parse_time "9:30" = 9 := by decide
example : parse_time "garbage" = 0 := by decide
example : parse_time "99:00" = 99 := by decide
example : parse_time "-5:30" = -5 := by decide
example : parse_time " 8 :00" = 8 := by decide
example : parse_time ":30" = 0 := by decide
example : clean_numD "1,234" = some ⟨false, 1234, 0, 0⟩ := by decide
example : clean_num "1,234" = 1234 := by
  have h : clean_numD "1,234" = some ⟨false, 1234, 0, 0⟩ := by decide
  unfold clean_num
  rw [h]
  norm_num [Decimal.toRat]
example : clean_num "" = 0 := by
  have h : clean_numD "" = none := by decide
  unfold clean_num
  rw [h]
example : clean_num "55%" = 55 := by
  have h : clean_numD "55%" = some ⟨false, 55, 0, 0⟩ := by decide
  unfold clean_num
  rw [h]
  norm_num [Decimal.toRat]
example : clean_num "abc" = 0 := by
  have h : clean_numD "abc" = none := by decide
  unfold clean_num
  rw [h]
example : clean_num "0.85" = (85 : Rat) / 100 := by
  have h : clean_numD "0.85" = some ⟨false, 85, 2, 0⟩ := by decide
  unfold clean_num
  rw [h]
  norm_num [Decimal.toRat]

/-- `ID_MAPPING` from `csv_to_profiles.py`, in source order: the primary
prefix-to-identifier table. -/
def ID_MAPPING : List (String × String) := [
  ("01", "1_single_office"),
  ("02", "2_group_office"),
  ("03", "3_open_plan_office"),
  ("04", "4_meeting"),
  ("05", "5_counter"),
  ("06", "6_retail"),
  ("07", "7_retail_refrig"),
  ("08", "8_classroom"),
  ("09", "9_lecture_hall"),
  ("10", "10_bed_room"),
  ("11", "11_hotel_room"),
  ("12", "12_canteen"),
  ("13", "13_restaurant"),
  ("14", "14_kitchen"),
  ("15", "15_kitchen_prep"),
  ("16", "16_wc"),
  ("17", "17_common_area"),
  ("18", "18_support_store"),
  ("19", "19_corridor_care"),
  ("20", "20_storage_uncond"),
  ("21", "21_datacenter"),
  ("22.1", "22_1_workshop_light"),
  ("22.2", "22_2_workshop_medium"),
  ("22.3", "22_3_workshop_heavy"),
  ("23", "23_theater_audience"),
  ("24", "24_cloakroom"),
  ("25", "25_theater_foh"),
  ("26", "26_stage"),
  ("31", "31_gym"),
  ("32", "32_parking_office"),
  ("33", "33_parking_public"),
  ("34", "34_sauna"),
  ("35", "35_fitness"),
  ("36", "36_lab"),
  ("37", "37_exam_room"),
  ("38", "38_icu"),
  ("39", "39_corridor_icu"),
  ("40", "40_medical_practice"),
  ("41", "41_logistics"),
  ("42", "residential_single"),
  ("43", "residential_multi"),
  ("44", "residential_general")]

/-- `MANUAL_MAP` from `csv_to_profiles.py`.  Defined in the source but
never consulted by `generate_ts`; the override actually applied is the
inline `if`/`elif` chain, embedded as `override_chain` below. -/
def MANUAL_MAP : List (String × String) := [
  ("26", "28_fair"),
  ("27", "27_exhibition"),
  ("28", "29_library_public"),
  ("29", "30_library_stack")]

/-- The inline `if prefix == ... : id_key = ...` chain of `generate_ts`
(lines 100-105 of the source), run only when the primary lookup produced
a falsy value; `none` when no branch fires. -/
def override_chain (pfx : String) : Option String :=
  if pfx = "26" then some "28_fair"
  else if pfx = "27" then some "27_exhibition"
  else if pfx = "28" then some "29_library_public"
  else if pfx = "29" then some "30_library_stack"
  else if pfx = "30" then some "30_library_stack_closed"
  else if pfx = "25" then some "26_stage"
  else none

/-- Python falsiness of `dict.get`'s result: `None` or the empty string. -/
def isFalsy (o : Option String) : Bool :=
  match o with
  | none => true
  | some s => s == ""

/-- Python `prefix.replace('.', '_')`. -/
def dotToUnderscore (pfx : String) : String :=
  String.mk (pfx.toList.map (fun c => if c == '.' then '_' else c))

/-- The identifier-resolution logic of `generate_ts` (lines 97-116):
primary `ID_MAPPING.get`, then — only if that was falsy — the inline
override chain, then — if still falsy — the synthetic
`profile_<prefix with . replaced by _>` fallback. -/
def resolve_id (pfx : String) : String :=
  let k1 := ID_MAPPING.lookup pfx
  let k2 := if isFalsy k1 then override_chain pfx else k1
  if isFalsy k2 then "profile_" ++ dotToUnderscore pfx
  else k2.getD ""

example : resolve_id "22.1" = "22_1_workshop_light" := by decide
example : resolve_id "25" = "25_theater_foh" := by decide
example : resolve_id "26" = "26_stage" := by decide
example : resolve_id "30" = "30_library_stack_closed" := by decide
example : resolve_id "99.5" = "profile_99_5" := by decide

/-- The usage-profile record built by `generate_ts` for one row (the
dict literal at lines 119-148 of the source). -/
structure UsageProfile where
  id : String
  name : String
  usageHoursStart : Int
  usageHoursEnd : Int
  dailyUsageHours : Rat
  annualUsageDays : Rat
  usageHoursDay : Rat
  usageHoursNight : Rat
  hvacDailyOperationHours : Rat
  hvacAnnualOperationDays : Rat
  illuminance : Rat
  workplaneHeight : Rat
  illuminanceDepreciationFactor : Rat
  lightingAbsenceFactor : Rat
  partialOperationFactorLighting : Rat
  heatingSetpoint : Rat
  coolingSetpoint : Rat
  heatingSetbackTemp : Rat
  heatingDesignMinTemp : Rat
  coolingDesignMaxTemp : Rat
  humidityRequirement : String
  minOutdoorAir : Rat
  minOutdoorAirFlow : Rat
  hvacAbsenceFactor : Rat
  hvacPartialOperationFactor : Rat
  metabolicHeat : Rat
  equipmentHeat : Rat
deriving DecidableEq

/-- Cell access, Python `row[i]` inside the branch where it cannot raise. -/
def cellOf (row : List String) (i : Nat) : String :=
  (row.get? i).getD ""

/-- The row-to-record transformation of `generate_ts` (lines 92-148): the
prefix is the first space-delimited token of `row[0]`, the identifier is
resolved, and the record fields read cells 0-8, 10-13 and 15-27 (cells 9
and 14 are never read; cell 21 is copied verbatim).  The largest index
read is 27, so Python raises `IndexError` — modelled by `none` — exactly
when the row has fewer than 28 cells. -/
def makeProfile (row : List String) : Option UsageProfile :=
  if row.length < 28 then none
  else
    let raw_name := cellOf row 0
    let pfx := String.mk ((splitOnChar ' ' raw_name.toList).headD [])
    some {
      id := resolve_id pfx
      name := raw_name
      usageHoursStart := parse_time (cellOf row 1)
      usageHoursEnd := parse_time (cellOf row 2)
      dailyUsageHours := clean_num (cellOf row 3)
      annualUsageDays := clean_num (cellOf row 4)
      usageHoursDay := clean_num (cellOf row 5)
      usageHoursNight := clean_num (cellOf row 6)
      hvacDailyOperationHours := clean_num (cellOf row 7)
      hvacAnnualOperationDays := clean_num (cellOf row 8)
      illuminance := clean_num (cellOf row 10)
      workplaneHeight := clean_num (cellOf row 11)
      illuminanceDepreciationFactor := clean_num (cellOf row 12)
      lightingAbsenceFactor := clean_num (cellOf row 13)
      partialOperationFactorLighting := clean_num (cellOf row 15)
      heatingSetpoint := clean_num (cellOf row 16)
      coolingSetpoint := clean_num (cellOf row 17)
      heatingSetbackTemp := clean_num (cellOf row 18)
      heatingDesignMinTemp := clean_num (cellOf row 19)
      coolingDesignMaxTemp := clean_num (cellOf row 20)
      humidityRequirement := cellOf row 21
      minOutdoorAir := clean_num (cellOf row 22)
      minOutdoorAirFlow := clean_num (cellOf row 23)
      hvacAbsenceFactor := clean_num (cellOf row 24)
      hvacPartialOperationFactor := clean_num (cellOf row 25)
      metabolicHeat := clean_num (cellOf row 26)
      equipmentHeat := clean_num (cellOf row 27)
    }

/-- Python's `not row or not row[0]`: the empty row, or an empty first cell. -/
def rowBlank (row : List String) : Bool :=
  match row with
  | [] => true
  | c :: _ => c == ""

/-- The row loop of `generate_ts` (lines 89-149): blank rows are skipped
(`continue`), every other row is transformed and appended; a raised
exception anywhere aborts the whole run (`none`). -/
def generate : List (List String) → Option (List UsageProfile)
  | [] => some []
  | row :: rest =>
    if rowBlank row then generate rest
    else do
      let p ← makeProfile row
      let ps ← generate rest
      pure (p :: ps)

/-- `generate_ts` on an in-memory CSV: `next(reader)` discards the header
row (raising `StopIteration` — `none` — on an empty file), then the row
loop runs. -/
def generate_ts (input : List (List String)) : Option (List UsageProfile) :=
  match input with
  | [] => none
  | _header :: rows => generate rows

example : generate_ts [["Name"], ["22.1 Workshop", "08:00", "18:00", "10",
  "250", "8", "2", "9", "240", "", "", "500", "0.85", "0.9", "0.8", "1",
  "20", "24", "16", "5", "28", "", "", "0.8", "0.9", "1.2", "5"]] = none := by
  decide

/-- A successful `List.lookup` pairs the key with a value stored in the list. -/
theorem lookup_mem_pairs {l : List (String × String)} {p v : String}
    (h : l.lookup p = some v) : (p, v) ∈ l := by
  induction l with
  | nil => simp [List.lookup] at h
  | cons a t ih =>
    obtain ⟨k, b⟩ := a
    rw [List.lookup] at h
    split at h
    · cases h
      have : p = k := by
        rename_i hk
        exact eq_of_beq hk
      subst this
      exact List.mem_cons_self _ _
    · exact List.mem_cons_of_mem _ (ih h)

/-- Every identifier stored in the primary table is non-empty. -/
theorem id_mapping_values_ne_empty : ∀ x ∈ ID_MAPPING, x.2 ≠ "" := by decide

/-- A successful primary lookup yields a non-empty (hence truthy) value. -/
theorem lookup_id_mapping_ne_empty {p v : String}
    (h : ID_MAPPING.lookup p = some v) : v ≠ "" :=
  id_mapping_values_ne_empty _ (lookup_mem_pairs h)

/-- When the primary table has an entry, the resolver returns it. -/
theorem resolve_id_of_lookup {p v : String}
    (h : ID_MAPPING.lookup p = some v) : resolve_id p = v := by
  have hv : v ≠ "" := lookup_id_mapping_ne_empty h
  have hfal : isFalsy (some v) = false := by
    simp [isFalsy, hv]
  unfold resolve_id
  rw [h]
  simp [hfal]

/-- A string that contains a character is not empty. -/
theorem containsChar_ne_nil {c : Char} {cs : List Char}
    (h : containsChar c cs = true) : cs.isEmpty = false := by
  cases cs with
  | nil => simp [containsChar] at h
  | cons a t => rfl

/-- A non-empty string has a non-empty character list. -/
theorem toList_isEmpty_false {s : String} (h : s ≠ "") :
    s.toList.isEmpty = false := by
  cases hl : s.toList with
  | nil =>
    have hd : s.data = "".data := hl
    exact absurd (String.ext hd) h
  | cons a t => rfl

/-- The synthetic fallback identifier is never the empty string. -/
theorem profile_prefix_ne_empty (x : String) : "profile_" ++ x ≠ "" := by
  intro h
  have hd : ("profile_" ++ x).data = "".data := by rw [h]
  rw [String.data_append] at hd
  simp at hd

/-- C3: a prefix present in both the primary table and the override
mapping resolves to the primary table's value; in particular `"25"` and
`"26"` resolve to `"25_theater_foh"` and `"26_stage"`, never to the
override values `"26_stage"` and `"28_fair"`. -/
theorem resolver_primary_precedence :
    (∀ p v w : String, ID_MAPPING.lookup p = some v → override_chain p = some w →
      resolve_id p = v) ∧
    resolve_id "25" = "25_theater_foh" ∧ resolve_id "26" = "26_stage" ∧
    resolve_id "25" ≠ "26_stage" ∧ resolve_id "26" ≠ "28_fair" :=
  ⟨fun _ _ _ hv _ => resolve_id_of_lookup hv,
   by decide, by decide, by decide, by decide⟩

/-- Witness for C3: the precedence law applied to the two concrete
prefixes present in both tables. -/
theorem resolver_primary_precedence_witness :
    resolve_id "25" = "25_theater_foh" ∧ resolve_id "26" = "26_stage" :=
  ⟨resolver_primary_precedence.1 "25" "25_theater_foh" "26_stage"
     (by decide) (by decide),
   resolver_primary_precedence.1 "26" "26_stage" "28_fair"
     (by decide) (by decide)⟩

/-- C4 counterexample: prefix `"30"` does not resolve to the synthetic
fallback `"profile_30"`; it resolves to `"30_library_stack_closed"`. -/
theorem closed_stack_fallback_counterexample :
    resolve_id "30" ≠ "profile_30" ∧
    resolve_id "30" = "30_library_stack_closed" := by decide

/-- C4 amended: prefix `"30"` is absent from the primary table but is
handled by the explicit override chain (`elif prefix == "30"`), so the
resolver returns `"30_library_stack_closed"` and the synthetic fallback
is not reached. -/
theorem closed_stack_resolution :
    ID_MAPPING.lookup "30" = none ∧
    override_chain "30" = some "30_library_stack_closed" ∧
    resolve_id "30" = "30_library_stack_closed" := by decide

/-- C5: `parse_time` returns `0` on empty or `:`-free input, otherwise
the first `:`-segment parsed as an integer, `0` on parse failure, and it
is total; `parse_time "" = 0`, `parse_time "9:30" = 9`,
`parse_time "garbage" = 0`. -/
theorem parse_time_contract :
    (∀ s : String, s = "" ∨ containsChar ':' s.toList = false → parse_time s = 0) ∧
    (∀ (s : String) (n : Int), containsChar ':' s.toList = true →
      parseIntPy ((splitOnChar ':' s.toList).headD []) = some n →
      parse_time s = n) ∧
    (∀ s : String, containsChar ':' s.toList = true →
      parseIntPy ((splitOnChar ':' s.toList).headD []) = none →
      parse_time s = 0) ∧
    parse_time "" = 0 ∧ parse_time "9:30" = 9 ∧ parse_time "garbage" = 0 := by
  refine ⟨?_, ?_, ?_, by decide, by decide, by decide⟩
  · intro s h
    rcases h with h | h
    · subst h; decide
    · simp only [parse_time, h, Bool.not_false, Bool.or_true, if_pos]
  · intro s n hc hp
    simp only [parse_time, hc, containsChar_ne_nil hc, Bool.not_true,
      Bool.or_false, hp]
    rfl
  · intro s hc hp
    simp only [parse_time, hc, containsChar_ne_nil hc, Bool.not_true,
      Bool.or_false, hp]
    rfl

/-- Witness for C5: the contract applied at `""`, `"9:30"` and `"garbage"`. -/
theorem parse_time_contract_witness :
    parse_time "" = 0 ∧ parse_time "9:30" = 9 ∧ parse_time "garbage" = 0 :=
  ⟨parse_time_contract.1 "" (Or.inl rfl),
   parse_time_contract.2.1 "9:30" 9 (by decide) (by decide),
   parse_time_contract.1 "garbage" (Or.inr (by decide))⟩

/-- C6: `clean_num` returns `0` on empty input, otherwise strips `,` and
`%` and parses the rest as a float, `0` on parse failure, and it is
total; `clean_num "" = 0`, `clean_num "1,234" = 1234`,
`clean_num "55%" = 55`, `clean_num "abc" = 0`. -/
theorem clean_num_contract :
    clean_num "" = 0 ∧
    (∀ (s : String) (d : Decimal), s ≠ "" →
      parseFloatPy (removeChar '%' (removeChar ',' s.toList)) = some d →
      clean_num s = d.toRat) ∧
    (∀ s : String, s ≠ "" →
      parseFloatPy (removeChar '%' (removeChar ',' s.toList)) = none →
      clean_num s = 0) ∧
    clean_num "1,234" = 1234 ∧ clean_num "55%" = 55 ∧ clean_num "abc" = 0 := by
  refine ⟨by decide, ?_, ?_, ?_, ?_, ?_⟩
  · intro s d hs hp
    simp only [clean_num, clean_numD, toList_isEmpty_false hs,
      Bool.false_eq_true, if_false, hp]
  · intro s hs hp
    simp only [clean_num, clean_numD, toList_isEmpty_false hs,
      Bool.false_eq_true, if_false, hp]
  · have h : clean_numD "1,234" = some ⟨false, 1234, 0, 0⟩ := by decide
    unfold clean_num; rw [h]; norm_num [Decimal.toRat]
  · have h : clean_numD "55%" = some ⟨false, 55, 0, 0⟩ := by decide
    unfold clean_num; rw [h]; norm_num [Decimal.toRat]
  · have h : clean_numD "abc" = none := by decide
    unfold clean_num; rw [h]

/-- Witness for C6: the contract applied at `"1,234"` (successful parse
after stripping) and `"abc"` (caught parse failure). -/
theorem clean_num_contract_witness :
    clean_num "1,234" = Decimal.toRat ⟨false, 1234, 0, 0⟩ ∧ clean_num "abc" = 0 :=
  ⟨clean_num_contract.2.1 "1,234" ⟨false, 1234, 0, 0⟩ (by decide) (by decide),
   clean_num_contract.2.2.1 "abc" (by decide) (by decide)⟩

/-- Unfolding lemma for `resolve_id` with the intermediate lets expanded. -/
theorem resolve_id_eq (p : String) :
    resolve_id p =
      if isFalsy (if isFalsy (ID_MAPPING.lookup p) then override_chain p
          else ID_MAPPING.lookup p) then "profile_" ++ dotToUnderscore p
      else (if isFalsy (ID_MAPPING.lookup p) then override_chain p
          else ID_MAPPING.lookup p).getD "" := rfl

/-- C7: identifier resolution is total — every prefix found in neither
table resolves to `"profile_"` plus the prefix with `.` replaced by `_`
(so `"99.5"` gives `"profile_99_5"`), and the resolver always returns a
non-empty string. -/
theorem resolver_total_fallback :
    (∀ p : String, ID_MAPPING.lookup p = none → override_chain p = none →
      resolve_id p = "profile_" ++ dotToUnderscore p) ∧
    resolve_id "99.5" = "profile_99_5" ∧
    (∀ p : String, resolve_id p ≠ "") := by
  refine ⟨?_, by decide, ?_⟩
  · intro p h1 h2
    simp [resolve_id, h1, h2, isFalsy]
  · intro p
    rw [resolve_id_eq]
    rcases hk : (if isFalsy (ID_MAPPING.lookup p) then override_chain p
        else ID_MAPPING.lookup p) with _ | v
    · have h1 : isFalsy (none : Option String) = true := rfl
      rw [h1, if_pos rfl]
      exact profile_prefix_ne_empty _
    · by_cases hv : v = ""
      · subst hv
        have h1 : isFalsy (some "") = true := rfl
        rw [h1, if_pos rfl]
        exact profile_prefix_ne_empty _
      · have h1 : isFalsy (some v) = false := by
          simp [isFalsy, hv]
        rw [h1, if_neg (by simp)]
        simpa using hv

/-- Witness for C7: the fallback law applied at the unknown prefix `"99.5"`. -/
theorem resolver_total_fallback_witness :
    resolve_id "99.5" = "profile_" ++ dotToUnderscore "99.5" ∧
    resolve_id "99.5" ≠ "" :=
  ⟨resolver_total_fallback.1 "99.5" (by decide) (by decide),
   resolver_total_fallback.2.2 "99.5"⟩

/-- The data row of the spec's end-to-end scenario (§8), i.e.
`"22.1 Workshop,08:00,18:00,10,250,8,2,9,240,,,500,0.85,0.9,0.8,1,20,24,16,5,28,,,0.8,0.9,1.2,5"`
split at its commas: 27 cells, indices 0 through 26. -/
def scenarioRow : List String :=
  ["22.1 Workshop", "08:00", "18:00", "10", "250", "8", "2", "9", "240",
   "", "", "500", "0.85", "0.9", "0.8", "1", "20", "24", "16", "5", "28",
   "", "", "0.8", "0.9", "1.2", "5"]

/-- C1 counterexample: on the spec's two-row scenario input the generator
does not produce a one-entry output — the run aborts (`none`), because
the data row has 27 cells while the transformer reads cell index 27. -/
theorem scenario_counterexample :
    generate_ts [["Name"], scenarioRow] = none ∧
    scenarioRow.length = 27 := by decide

/-- C1 amended: for the two-row input of a header row followed by the
scenario data row, the generator aborts with an index error — the data
row has 27 cells but the row-to-record transformer unconditionally reads
cell index 27 — so the output contains no entries at all. -/
theorem scenario_aborts (header : List String) :
    generate_ts (header :: [scenarioRow]) = none ∧
    makeProfile scenarioRow = none ∧
    scenarioRow.length = 27 := by
  refine ⟨?_, by decide, by decide⟩
  show generate [scenarioRow] = none
  decide

/-- Witness for C1's amended claim, at the empty header row. -/
theorem scenario_aborts_witness :
    generate_ts ([] :: [scenarioRow]) = none :=
  (scenario_aborts []).1

/-- C2 counterexample: the row `["x"]` has a non-empty first cell, yet
the row-to-record transformation raises (`none`) instead of producing a
record: Python evaluates `row[1]` on a one-cell row. -/
theorem short_row_counterexample :
    rowBlank ["x"] = false ∧ makeProfile ["x"] = none := by decide

/-- C2 amended: for every input row with at least 28 cells — however
malformed its numeric or time cells — the row-to-record transformation
produces exactly one record and never raises; rows with fewer than 28
cells abort with an index error because cell 27 is read unconditionally. -/
theorem row_to_record_total (row : List String) (h : 28 ≤ row.length) :
    ∃ p : UsageProfile, makeProfile row = some p := by
  have hne : ¬ row.length < 28 := by omega
  unfold makeProfile
  rw [if_neg hne]
  exact ⟨_, rfl⟩

/-- Witness for C2's amended claim: the scenario row extended to 28
cells is transformed successfully. -/
theorem row_to_record_total_witness :
    (28 : Nat) ≤ (scenarioRow ++ ["5"]).length ∧
    ∃ p : UsageProfile, makeProfile (scenarioRow ++ ["5"]) = some p :=
  ⟨by decide, row_to_record_total (scenarioRow ++ ["5"]) (by decide)⟩

/-- C8: a data row whose first cell is empty or absent is silently
skipped and contributes no output entry, so a completed run emits at
most as many entries as there are data rows, and strictly fewer when a
blank row exists. -/
theorem blank_rows_skipped :
    (∀ (row : List String) (rows : List (List String)), rowBlank row = true →
      generate (row :: rows) = generate rows) ∧
    (∀ (rows : List (List String)) (out : List UsageProfile),
      generate rows = some out →
      out.length ≤ rows.length ∧
      ((∃ r ∈ rows, rowBlank r = true) → out.length < rows.length)) := by
  constructor
  · intro row rows hb
    simp [generate, hb]
  · intro rows
    induction rows with
    | nil =>
      intro out h
      simp [generate] at h
      subst h
      simp
    | cons row rest ih =>
      intro out h
      rw [generate] at h
      by_cases hb : rowBlank row
      · rw [if_pos hb] at h
        obtain ⟨h1, _⟩ := ih out h
        exact ⟨Nat.le_succ_of_le h1, fun _ => Nat.lt_succ_of_le h1⟩
      · rw [if_neg hb] at h
        cases hmp : makeProfile row with
        | none => rw [hmp] at h; simp at h
        | some p =>
          rw [hmp] at h
          cases hg : generate rest with
          | none => rw [hg] at h; simp at h
          | some ps =>
            rw [hg] at h
            simp at h
            subst h
            obtain ⟨h1, h2⟩ := ih ps hg
            refine ⟨Nat.succ_le_succ h1, ?_⟩
            rintro ⟨r, hr, hrb⟩
            rcases List.mem_cons.mp hr with hre | hrm
            · subst hre; exact absurd hrb hb
            · exact Nat.succ_lt_succ (h2 ⟨r, hrm, hrb⟩)

/-- Witness for C8: a single blank row is skipped; the completed run
emits zero entries, strictly fewer than its one data row. -/
theorem blank_rows_skipped_witness :
    generate [([] : List String)] = some [] ∧
    ([] : List UsageProfile).length ≤ 1 ∧
    ([] : List UsageProfile).length < 1 := by
  have h0 : generate [([] : List String)] = some [] := by decide
  have h := blank_rows_skipped.2 [[]] [] h0
  exact ⟨h0, h.1, h.2 ⟨[], List.mem_singleton.mpr rfl, rfl⟩⟩

/-- C9: cells 9 and 14 are dead inputs — two rows of at least 28 cells
that agree everywhere except possibly at indices 9 and 14 are
transformed to identical records. -/
theorem unused_cells_noninterference (r1 r2 : List String)
    (hlen : r1.length = r2.length) (h28 : 28 ≤ r1.length)
    (hagree : ∀ i, i < r1.length → i ≠ 9 → i ≠ 14 → cellOf r1 i = cellOf r2 i) :
    makeProfile r1 = makeProfile r2 := by
  have hc : ∀ i : Nat, i ≠ 9 → i ≠ 14 → i < 28 → cellOf r1 i = cellOf r2 i :=
    fun i h9 h14 hi => hagree i (by omega) h9 h14
  unfold makeProfile
  rw [if_neg (by omega), if_neg (by omega)]
  rw [hc 0 (by decide) (by decide) (by decide),
    hc 1 (by decide) (by decide) (by decide),
    hc 2 (by decide) (by decide) (by decide),
    hc 3 (by decide) (by decide) (by decide),
    hc 4 (by decide) (by decide) (by decide),
    hc 5 (by decide) (by decide) (by decide),
    hc 6 (by decide) (by decide) (by decide),
    hc 7 (by decide) (by decide) (by decide),
    hc 8 (by decide) (by decide) (by decide),
    hc 10 (by decide) (by decide) (by decide),
    hc 11 (by decide) (by decide) (by decide),
    hc 12 (by decide) (by decide) (by decide),
    hc 13 (by decide) (by decide) (by decide),
    hc 15 (by decide) (by decide) (by decide),
    hc 16 (by decide) (by decide) (by decide),
    hc 17 (by decide) (by decide) (by decide),
    hc 18 (by decide) (by decide) (by decide),
    hc 19 (by decide) (by decide) (by decide),
    hc 20 (by decide) (by decide) (by decide),
    hc 21 (by decide) (by decide) (by decide),
    hc 22 (by decide) (by decide) (by decide),
    hc 23 (by decide) (by decide) (by decide),
    hc 24 (by decide) (by decide) (by decide),
    hc 25 (by decide) (by decide) (by decide),
    hc 26 (by decide) (by decide) (by decide),
    hc 27 (by decide) (by decide) (by decide)]

/-- A 28-cell row carrying content in the dead cells 9 and 14. -/
def rowWithSecrets : List String :=
  ["22.1 Workshop", "08:00", "18:00", "10", "250", "8", "2", "9", "240",
   "IGNORED-9", "", "500", "0.85", "0.9", "IGNORED-14", "1", "20", "24",
   "16", "5", "28", "", "", "0.8", "0.9", "1.2", "5", "7"]

/-- The same row with different content in cells 9 and 14. -/
def rowWithoutSecrets : List String :=
  ["22.1 Workshop", "08:00", "18:00", "10", "250", "8", "2", "9", "240",
   "", "", "500", "0.85", "0.9", "other", "1", "20", "24",
   "16", "5", "28", "", "", "0.8", "0.9", "1.2", "5", "7"]

/-- Witness for C9: two concrete rows differing exactly at cells 9 and
14 produce the same record. -/
theorem unused_cells_noninterference_witness :
    makeProfile rowWithSecrets = makeProfile rowWithoutSecrets :=
  unused_cells_noninterference rowWithSecrets rowWithoutSecrets
    (by decide) (by decide) (by decide)

/-- A 28-cell probe row whose time cells 1 and 2 hold `s` and whose
other cells are empty. -/
def timeProbeRow (s : String) : List String :=
  ["probe", s, s, "", "", "", "", "", "", "", "", "", "", "",
   "", "", "", "", "", "", "", "", "", "", "", "", "", ""]

/-- C10: `parse_time` imposes no range constraint — `parse_time "99:00"`
is `99` and `parse_time "-5:30"` is `-5` — and whatever integer the
first `:`-segment of a cell parses to is emitted verbatim as the
record's `usageHoursStart` and `usageHoursEnd`. -/
theorem parse_time_unbounded :
    parse_time "99:00" = 99 ∧ parse_time "-5:30" = -5 ∧
    (∀ s : String, ∃ p : UsageProfile,
      generate_ts [["header"], timeProbeRow s] = some [p] ∧
      p.usageHoursStart = parse_time s ∧ p.usageHoursEnd = parse_time s) := by
  refine ⟨by decide, by decide, ?_⟩
  intro s
  exact ⟨_, rfl, rfl, rfl⟩

/-- Witness for C10: an emitted record with hour 99, outside 0-23. -/
theorem parse_time_unbounded_witness :
    ∃ p : UsageProfile,
      generate_ts [["header"], timeProbeRow "99:00"] = some [p] ∧
      p.usageHoursStart = parse_time "99:00" ∧
      p.usageHoursEnd = parse_time "99:00" :=
  parse_time_unbounded.2.2 "99:00"
